import Mathlib

/-!
Verification of the dose-response activation notebook
(`src/notebooks/dose-response-activation.ipynb`).

The notebook generates synthetic concentration/response data for three
molecules, defines a four-parameter sigmoidal `dose_response` function,
assembles a pandas DataFrame, and specifies three successive PyMC3 models
that are each handed to the MCMC sampler.

We embed the numeric code over `ℝ` (numpy float arrays become `List ℝ`,
2-d arrays become `List (List ℝ)`), the DataFrame over a tagged value type
distinguishing float and integer cells, and the three declarative model
specifications as lists of random-variable declarations whose
hyperparameters are either numeric constants or references to other random
variables of the same model.
-/

open Real Filter

/-- The denominator of the sigmoid in `dose_response`
(source line 53: `1 + np.exp(slope * (c50 - x))`). -/
noncomputable def doseDenom (x slope c50 : ℝ) : ℝ :=
  1 + Real.exp (slope * (c50 - x))

/-- Scalar semantics of `dose_response`
(source: `lower + (upper - lower) / (1 + np.exp(slope * (c50 - x)))`). -/
noncomputable def dose_response (x lower upper slope c50 : ℝ) : ℝ :=
  lower + (upper - lower) / (1 + Real.exp (slope * (c50 - x)))

/-- numpy broadcasting of `c - x` over an array `x`. -/
def npRsubScalar (c : ℝ) (xs : List ℝ) : List ℝ :=
  xs.map (fun x => c - x)

/-- numpy broadcasting of `s * x` over an array `x`. -/
def npMulScalar (s : ℝ) (xs : List ℝ) : List ℝ :=
  xs.map (fun x => s * x)

/-- numpy elementwise `np.exp`. -/
noncomputable def npExp (xs : List ℝ) : List ℝ :=
  xs.map Real.exp

/-- numpy broadcasting of `a + x` over an array `x`. -/
def npAddScalar (a : ℝ) (xs : List ℝ) : List ℝ :=
  xs.map (fun x => a + x)

/-- numpy broadcasting of `a / x` over an array `x`. -/
noncomputable def npDivScalar (a : ℝ) (xs : List ℝ) : List ℝ :=
  xs.map (fun x => a / x)

/-- Array semantics of `dose_response` on a 1-d numpy array, composing the
broadcast operations exactly as the source expression does:
`lower + (upper - lower) / (1 + np.exp(slope * (c50 - x)))`. -/
noncomputable def dose_response_arr (xs : List ℝ) (lower upper slope c50 : ℝ) : List ℝ :=
  npAddScalar lower
    (npDivScalar (upper - lower)
      (npAddScalar 1 (npExp (npMulScalar slope (npRsubScalar c50 xs)))))

/-- Semantics of `np.linspace a b n`: `n` evenly spaced points from `a`
to `b` inclusive. -/
noncomputable def linspace (a b : ℝ) (n : ℕ) : List ℝ :=
  (List.range n).map (fun i : ℕ => a + (b - a) * i / (n - 1))

/-- Source: `x1 = np.vstack([np.linspace(-2, 2, 10)] * 5)`. -/
noncomputable def x1 : List (List ℝ) :=
  List.replicate 5 (linspace (-2) 2 10)

/-- Source: `x2 = np.vstack([np.linspace(-2, 2, 10)] * 5)`. -/
noncomputable def x2 : List (List ℝ) :=
  List.replicate 5 (linspace (-2) 2 10)

/-- Source: `x3 = np.vstack([np.linspace(-2, 2, 10)] * 5)`. -/
noncomputable def x3 : List (List ℝ) :=
  List.replicate 5 (linspace (-2) 2 10)

/-- Semantics of `x1.flatten()`. -/
noncomputable def x1flat : List ℝ := x1.flatten

/-- Semantics of `x2.flatten()`. -/
noncomputable def x2flat : List ℝ := x2.flatten

/-- Semantics of `x3.flatten()`. -/
noncomputable def x3flat : List ℝ := x3.flatten

/-- Application of `dose_response` to a 2-d numpy array (numpy broadcasts
the scalar expression over both axes, i.e. row by row). -/
noncomputable def dose_response_mat
    (xss : List (List ℝ)) (lower upper slope c50 : ℝ) : List (List ℝ) :=
  xss.map (fun row => dose_response_arr row lower upper slope c50)

/-- Source: `y1 = dose_response(x1, lower=3, upper=6, slope=4, c50=0)
+ noise(x1, 0.5)`. The call `noise(x, sd)` draws a random normal array of
`x`'s shape; we model the drawn sample as the explicit matrix parameter
`e`, and `+` as numpy elementwise addition of two same-shape arrays. -/
noncomputable def y1 (e : List (List ℝ)) : List (List ℝ) :=
  List.zipWith (fun r nr => List.zipWith (fun a b => a + b) r nr)
    (dose_response_mat x1 3 6 4 0) e

/-- Source: `y2 = dose_response(x2, lower=2.5, upper=8, slope=3, c50=1.5)
+ noise(x2, 0.5)`, with the drawn noise matrix `e` explicit. -/
noncomputable def y2 (e : List (List ℝ)) : List (List ℝ) :=
  List.zipWith (fun r nr => List.zipWith (fun a b => a + b) r nr)
    (dose_response_mat x2 (5/2) 8 3 (3/2)) e

/-- Source: `y3 = dose_response(x3, lower=3.2, upper=3.4, slope=1.5,
c50=0.0) + noise(x3, 0.5)`, with the drawn noise matrix `e` explicit. -/
noncomputable def y3 (e : List (List ℝ)) : List (List ℝ) :=
  List.zipWith (fun r nr => List.zipWith (fun a b => a + b) r nr)
    (dose_response_mat x3 (16/5) (17/5) (3/2) 0) e

/-- Semantics of `y1.flatten()`. -/
noncomputable def y1flat (e : List (List ℝ)) : List ℝ := (y1 e).flatten

/-- Semantics of `y2.flatten()`. -/
noncomputable def y2flat (e : List (List ℝ)) : List ℝ := (y2 e).flatten

/-- Semantics of `y3.flatten()`. -/
noncomputable def y3flat (e : List (List ℝ)) : List ℝ := (y3 e).flatten

/-- A pandas cell value, tagged with its dtype: numpy float columns hold
`float` cells, integer columns (like the one built from the Python list
`[0]*50 + [1]*50 + [2]*50`) hold `int` cells. -/
inductive PyVal where
  | float (x : ℝ)
  | int (n : ℤ)

/-- Whether a cell holds a floating-point value. -/
def PyVal.isFloat : PyVal → Bool
  | .float _ => true
  | .int _ => false

/-- The assembled DataFrame: three named columns of equal row count. -/
structure DataFrame where
  concentration : List PyVal
  response : List PyVal
  molecule : List PyVal

/-- Source (cell building `df`): concatenates the flattened concentration
grids, the flattened responses, and the Python integer list
`[0] * len(x1.flatten()) + [1] * len(x2.flatten()) + [2] * len(x3.flatten())`
into a three-column DataFrame. -/
noncomputable def mkDf (e1 e2 e3 : List (List ℝ)) : DataFrame :=
  { concentration := (x1flat ++ x2flat ++ x3flat).map PyVal.float
    response := (y1flat e1 ++ y2flat e2 ++ y3flat e3).map PyVal.float
    molecule :=
      (List.replicate x1flat.length (0 : ℤ) ++
        List.replicate x2flat.length 1 ++
        List.replicate x3flat.length 2).map PyVal.int }

/-- A hyperparameter of a prior distribution: either a numeric constant or
a reference to another random variable of the same model. -/
inductive HParam where
  | const (q : ℚ)
  | rv (name : String)
deriving DecidableEq

/-- The distribution families used by the notebook's models, with their
hyperparameters. -/
inductive PriorDist where
  | normal (mu sd : HParam)
  | halfNormal (sd : HParam)
  | exponential (lam : HParam)
  | gamma (mu sd : HParam)
deriving DecidableEq

/-- One `pm.*` random-variable declaration: its name, distribution,
shape (3 = per-molecule vector, 1 = scalar, 150 = observed data), and
whether it is the observed likelihood. -/
structure RVDecl where
  name : String
  dist : PriorDist
  shape : ℕ
  observed : Bool
deriving DecidableEq

/-- The hyperparameters of a distribution, in declaration order. -/
def PriorDist.hyperparams : PriorDist → List HParam
  | .normal mu sd => [mu, sd]
  | .halfNormal sd => [sd]
  | .exponential lam => [lam]
  | .gamma mu sd => [mu, sd]

/-- Look up a random variable's declaration by name. -/
def declOf (m : List RVDecl) (n : String) : Option RVDecl :=
  m.find? (fun d => d.name == n)

/-- Whether a hyperparameter is a reference to a random variable declared
in the same model (a shared group-level hyperprior). -/
def HParam.isSharedRV (m : List RVDecl) : HParam → Bool
  | .const _ => false
  | .rv n => (declOf m n).isSome

/-- Whether the named parameter's prior has at least one group-level
hyperprior, i.e. a hyperparameter that is itself a random variable
declared in the model. -/
def hasGroupHyperprior (m : List RVDecl) (pname : String) : Bool :=
  match declOf m pname with
  | some d => d.dist.hyperparams.any (fun p => p.isSharedRV m)
  | none => false

/-- Whether a model places shared group-level hyperpriors over all four
per-molecule curve parameters (partial pooling across molecules). -/
def pooledAcrossMolecules (m : List RVDecl) : Bool :=
  hasGroupHyperprior m "lower" && hasGroupHyperprior m "upper" &&
    hasGroupHyperprior m "c50" && hasGroupHyperprior m "slope"

/-- First model version (`with pm.Model() as model`): independent priors
with fixed numeric hyperparameters on all per-molecule parameters, plus
the per-molecule observation noise `sd` and the observed likelihood
`like` whose mean is the deterministic `dose_response` transform `mu`. -/
def model : List RVDecl :=
  [⟨"lower", .normal (.const 0) (.const 10), 3, false⟩,
   ⟨"upper", .normal (.const 10) (.const 10), 3, false⟩,
   ⟨"c50", .normal (.const 0) (.const 10), 3, false⟩,
   ⟨"slope", .halfNormal (.const 10), 3, false⟩,
   ⟨"sd", .halfNormal (.const 10), 3, false⟩,
   ⟨"like", .normal (.rv "mu") (.rv "sd"), 150, true⟩]

/-- Second model version (`with pm.Model() as model_v2`): group-level
hyperpriors `lower_mu`, `lower_sd`, `upper_mu`, `upper_sd`, `c50_mu`,
`c50_sd`, `slope_sd` over the per-molecule parameters. -/
def model_v2 : List RVDecl :=
  [⟨"lower_mu", .normal (.const 0) (.const 3), 1, false⟩,
   ⟨"lower_sd", .exponential (.const 5), 1, false⟩,
   ⟨"lower", .normal (.rv "lower_mu") (.rv "lower_sd"), 3, false⟩,
   ⟨"upper_mu", .normal (.const 7) (.const 3), 1, false⟩,
   ⟨"upper_sd", .exponential (.const 5), 1, false⟩,
   ⟨"upper", .normal (.rv "upper_mu") (.rv "upper_sd"), 3, false⟩,
   ⟨"c50_mu", .normal (.const 0) (.const 3), 1, false⟩,
   ⟨"c50_sd", .exponential (.const 5), 1, false⟩,
   ⟨"c50", .normal (.rv "c50_mu") (.rv "c50_sd"), 3, false⟩,
   ⟨"slope_sd", .exponential (.const 5), 1, false⟩,
   ⟨"slope", .halfNormal (.rv "slope_sd"), 3, false⟩,
   ⟨"sd", .halfNormal (.const 10), 3, false⟩,
   ⟨"like", .normal (.rv "mu") (.rv "sd"), 150, true⟩]

/-- Third model version (`with pm.Model() as model_v3`): like the second,
but `lower` and `upper` switched to gamma-distributed with half-normal
hyperpriors on their means. -/
def model_v3 : List RVDecl :=
  [⟨"lower_mu", .halfNormal (.const 10), 1, false⟩,
   ⟨"lower_sd", .exponential (.const 5), 1, false⟩,
   ⟨"lower", .gamma (.rv "lower_mu") (.rv "lower_sd"), 3, false⟩,
   ⟨"upper_mu", .halfNormal (.const 10), 1, false⟩,
   ⟨"upper_sd", .exponential (.const 5), 1, false⟩,
   ⟨"upper", .gamma (.rv "upper_mu") (.rv "upper_sd"), 3, false⟩,
   ⟨"c50_mu", .normal (.const 0) (.const 3), 1, false⟩,
   ⟨"c50_sd", .exponential (.const 5), 1, false⟩,
   ⟨"c50", .normal (.rv "c50_mu") (.rv "c50_sd"), 3, false⟩,
   ⟨"slope_sd", .exponential (.const 5), 1, false⟩,
   ⟨"slope", .halfNormal (.rv "slope_sd"), 3, false⟩,
   ⟨"sd", .halfNormal (.const 10), 3, false⟩,
   ⟨"like", .normal (.rv "mu") (.rv "sd"), 150, true⟩]

/-- The linear sequence of `pm.sample` invocations of the notebook, in
execution order: the model handed over and the number of draws requested
(`pm.sample(2000)` in cells 8, 12 and 15). -/
def sample_calls : List (List RVDecl × ℕ) :=
  [(model, 2000), (model_v2, 2000), (model_v3, 2000)]

/-- C8: the division inside `dose_response` is always defined: the
denominator `1 + exp (slope * (c50 - x))` is strictly positive for all real
inputs, and `dose_response` is literally `lower + (upper - lower) / doseDenom`. -/
theorem doseDenom_pos_and_dose_response_eq (x lower upper slope c50 : ℝ) :
    0 < doseDenom x slope c50 ∧
      dose_response x lower upper slope c50 =
        lower + (upper - lower) / doseDenom x slope c50 := by
  constructor
  · have h := Real.exp_pos (slope * (c50 - x))
    unfold doseDenom
    linarith
  · rfl

/-- The array semantics is the elementwise map of the scalar semantics. -/
theorem dose_response_arr_eq_map (xs : List ℝ) (lower upper slope c50 : ℝ) :
    dose_response_arr xs lower upper slope c50 =
      xs.map (fun x => dose_response x lower upper slope c50) := by
  simp only [dose_response_arr, npAddScalar, npDivScalar, npExp, npMulScalar,
    npRsubScalar, List.map_map]
  rfl

/-- C1: on any array, `dose_response` returns an array of the same shape
whose every element is the closed-form four-parameter sigmoid
`lower + (upper - lower) / (1 + exp (slope * (c50 - x_i)))` of the
corresponding element. -/
theorem dose_response_arr_shape_and_elementwise
    (xs : List ℝ) (lower upper slope c50 : ℝ) :
    (dose_response_arr xs lower upper slope c50).length = xs.length ∧
      ∀ i : ℕ, i < xs.length →
        (dose_response_arr xs lower upper slope c50).getD i 0 =
          lower + (upper - lower) /
            (1 + Real.exp (slope * (c50 - xs.getD i 0))) := by
  rw [dose_response_arr_eq_map]
  refine ⟨by simp, ?_⟩
  intro i hi
  have hg : xs[i]? = some (xs.get ⟨i, hi⟩) := by
    simp [List.getElem?_eq_getElem hi]
  simp [List.getD_eq_getElem?_getD, List.getElem?_map, hg, dose_response]

/-- Witness for C1 at the concrete array `[0, 1]` and index `0`. -/
theorem dose_response_arr_shape_and_elementwise_witness :
    (0 : ℕ) < ([0, 1] : List ℝ).length ∧
      (dose_response_arr [0, 1] 3 6 4 0).getD 0 0 =
        3 + (6 - 3) / (1 + Real.exp (4 * (0 - ([0, 1] : List ℝ).getD 0 0))) :=
  ⟨by simp,
    (dose_response_arr_shape_and_elementwise [0, 1] 3 6 4 0).2 0 (by simp)⟩

/-- C9: `dose_response` is strictly bounded by its plateaus: when
`lower < upper` every output lies strictly between them, and when
`lower = upper` the output equals `lower`. -/
theorem dose_response_between (x lower upper slope c50 : ℝ) :
    (lower < upper →
        lower < dose_response x lower upper slope c50 ∧
          dose_response x lower upper slope c50 < upper) ∧
      (lower = upper → dose_response x lower upper slope c50 = lower) := by
  have hE : 0 < Real.exp (slope * (c50 - x)) := Real.exp_pos _
  constructor
  · intro hlu
    have hq0 : 0 < (upper - lower) / (1 + Real.exp (slope * (c50 - x))) :=
      div_pos (by linarith) (by linarith)
    have hq1 : (upper - lower) / (1 + Real.exp (slope * (c50 - x))) <
        upper - lower :=
      div_lt_self (by linarith) (by linarith)
    unfold dose_response
    constructor <;> linarith
  · intro hlu
    unfold dose_response
    rw [hlu, sub_self, zero_div, add_zero]

/-- Witness for C9 at `x = 0`, `lower = 3`, `upper = 6`, `slope = 4`,
`c50 = 0`. -/
theorem dose_response_between_witness :
    (3 : ℝ) < 6 ∧
      3 < dose_response 0 3 6 4 0 ∧ dose_response 0 3 6 4 0 < 6 :=
  ⟨by norm_num, (dose_response_between 0 3 6 4 0).1 (by norm_num)⟩

/-- C2: for positive slope and `lower < upper` the curve is an activation
curve: strictly increasing in `x`, tending to the lower plateau as
`x → -∞` and to the upper plateau as `x → +∞`. -/
theorem dose_response_strictMono_and_plateaus
    (lower upper slope c50 : ℝ) (hs : 0 < slope) (hlu : lower < upper) :
    StrictMono (fun x => dose_response x lower upper slope c50) ∧
      Tendsto (fun x => dose_response x lower upper slope c50) atBot
        (nhds lower) ∧
      Tendsto (fun x => dose_response x lower upper slope c50) atTop
        (nhds upper) := by
  refine ⟨?_, ?_, ?_⟩
  · intro a b hab
    have hlt : slope * (c50 - b) < slope * (c50 - a) :=
      mul_lt_mul_of_pos_left (by linarith) hs
    have hexp : Real.exp (slope * (c50 - b)) < Real.exp (slope * (c50 - a)) :=
      Real.exp_lt_exp.mpr hlt
    have hpb : 0 < 1 + Real.exp (slope * (c50 - b)) := by
      have := Real.exp_pos (slope * (c50 - b)); linarith
    have hdiv : (upper - lower) / (1 + Real.exp (slope * (c50 - a))) <
        (upper - lower) / (1 + Real.exp (slope * (c50 - b))) :=
      div_lt_div_of_pos_left (by linarith) hpb (by linarith)
    simpa [dose_response] using hdiv
  · have h1 : Tendsto (fun x : ℝ => c50 + -x) atBot atTop :=
      tendsto_atTop_add_const_left atBot c50 tendsto_neg_atBot_atTop
    have h1' : Tendsto (fun x : ℝ => slope * (c50 - x)) atBot atTop := by
      simpa [sub_eq_add_neg] using Tendsto.const_mul_atTop hs h1
    have h2 : Tendsto (fun x : ℝ => Real.exp (slope * (c50 - x))) atBot
        atTop := Real.tendsto_exp_atTop.comp h1'
    have h3 : Tendsto (fun x : ℝ => 1 + Real.exp (slope * (c50 - x))) atBot
        atTop := tendsto_atTop_add_const_left atBot 1 h2
    have h4 : Tendsto
        (fun x : ℝ => (upper - lower) / (1 + Real.exp (slope * (c50 - x))))
        atBot (nhds 0) := Tendsto.div_atTop tendsto_const_nhds h3
    have h5 : Tendsto
        (fun x : ℝ =>
          lower + (upper - lower) / (1 + Real.exp (slope * (c50 - x))))
        atBot (nhds (lower + 0)) := tendsto_const_nhds.add h4
    simpa [dose_response] using h5
  · have h1 : Tendsto (fun x : ℝ => c50 + -x) atTop atBot :=
      tendsto_atBot_add_const_left atTop c50 tendsto_neg_atTop_atBot
    have h1' : Tendsto (fun x : ℝ => slope * (c50 - x)) atTop atBot := by
      simpa [sub_eq_add_neg] using Tendsto.const_mul_atBot hs h1
    have h2 : Tendsto (fun x : ℝ => Real.exp (slope * (c50 - x))) atTop
        (nhds 0) := Real.tendsto_exp_atBot.comp h1'
    have h3 : Tendsto (fun x : ℝ => 1 + Real.exp (slope * (c50 - x))) atTop
        (nhds (1 + 0)) := tendsto_const_nhds.add h2
    have h4 : Tendsto
        (fun x : ℝ => (upper - lower) / (1 + Real.exp (slope * (c50 - x))))
        atTop (nhds ((upper - lower) / (1 + 0))) :=
      tendsto_const_nhds.div h3 (by norm_num)
    have h5 : Tendsto
        (fun x : ℝ =>
          lower + (upper - lower) / (1 + Real.exp (slope * (c50 - x))))
        atTop (nhds (lower + (upper - lower) / (1 + 0))) :=
      tendsto_const_nhds.add h4
    have heq : lower + (upper - lower) / (1 + 0 : ℝ) = upper := by norm_num
    rw [← heq]
    simpa [dose_response] using h5

/-- Witness for C2 at the first synthetic parameter set
(`lower = 3`, `upper = 6`, `slope = 4`, `c50 = 0`). -/
theorem dose_response_strictMono_and_plateaus_witness :
    (0 : ℝ) < 4 ∧ (3 : ℝ) < 6 ∧
      (StrictMono (fun x => dose_response x 3 6 4 0) ∧
        Tendsto (fun x => dose_response x 3 6 4 0) atBot (nhds 3) ∧
        Tendsto (fun x => dose_response x 3 6 4 0) atTop (nhds 6)) :=
  ⟨by norm_num, by norm_num,
    dose_response_strictMono_and_plateaus 3 6 4 0 (by norm_num) (by norm_num)⟩

/-- C3: `c50` is the midpoint of the curve: evaluating `dose_response` at
`x = c50` yields `(lower + upper) / 2`, halfway between the plateaus. -/
theorem dose_response_at_c50 (lower upper slope c50 : ℝ) :
    dose_response c50 lower upper slope c50 = (lower + upper) / 2 := by
  unfold dose_response
  rw [sub_self, mul_zero, Real.exp_zero]
  ring

/-- Helper: `np.linspace a b n` has `n` entries. -/
theorem linspace_len (a b : ℝ) (n : ℕ) : (linspace a b n).length = n := by
  unfold linspace
  rw [List.length_map, List.length_range]

/-- Helper: the flattened first grid has 50 entries. -/
theorem x1flat_len : x1flat.length = 50 := by
  simp [x1flat, x1, List.length_flatten, List.map_replicate,
    List.sum_replicate, smul_eq_mul, linspace_len]

/-- Helper: the flattened second grid has 50 entries. -/
theorem x2flat_len : x2flat.length = 50 := by
  simp [x2flat, x2, List.length_flatten, List.map_replicate,
    List.sum_replicate, smul_eq_mul, linspace_len]

/-- Helper: the flattened third grid has 50 entries. -/
theorem x3flat_len : x3flat.length = 50 := by
  simp [x3flat, x3, List.length_flatten, List.map_replicate,
    List.sum_replicate, smul_eq_mul, linspace_len]

/-- Helper: every row of the first grid is the 10-point linspace. -/
theorem x1_rows : ∀ r ∈ x1, r.length = 10 := by
  intro r hr
  simp only [x1] at hr
  rw [List.eq_of_mem_replicate hr]
  exact linspace_len _ _ _

/-- Helper: every row of the second grid is the 10-point linspace. -/
theorem x2_rows : ∀ r ∈ x2, r.length = 10 := by
  intro r hr
  simp only [x2] at hr
  rw [List.eq_of_mem_replicate hr]
  exact linspace_len _ _ _

/-- Helper: every row of the third grid is the 10-point linspace. -/
theorem x3_rows : ∀ r ∈ x3, r.length = 10 := by
  intro r hr
  simp only [x3] at hr
  rw [List.eq_of_mem_replicate hr]
  exact linspace_len _ _ _

/-- Helper: the array version of `dose_response` preserves length. -/
theorem dose_response_arr_len (xs : List ℝ) (lower upper slope c50 : ℝ) :
    (dose_response_arr xs lower upper slope c50).length = xs.length := by
  rw [dose_response_arr_eq_map]
  simp

/-- Helper: the matrix version of `dose_response` preserves row count. -/
theorem dose_response_mat_len (xss : List (List ℝ)) (lower upper slope c50 : ℝ) :
    (dose_response_mat xss lower upper slope c50).length = xss.length := by
  simp [dose_response_mat]

/-- Helper: the matrix version of `dose_response` preserves row lengths. -/
theorem dose_response_mat_rows (xss : List (List ℝ)) (lower upper slope c50 : ℝ)
    (n : ℕ) (h : ∀ r ∈ xss, r.length = n) :
    ∀ r ∈ dose_response_mat xss lower upper slope c50, r.length = n := by
  intro r hr
  simp only [dose_response_mat, List.mem_map] at hr
  obtain ⟨row, hrow, rfl⟩ := hr
  rw [dose_response_arr_len]
  exact h row hrow

/-- Helper: flattening the elementwise sum of two `k × n` matrices yields
`k * n` entries. -/
theorem flatten_zipWith_add_length (n : ℕ) (A B : List (List ℝ))
    (hA : ∀ r ∈ A, r.length = n) (hB : ∀ r ∈ B, r.length = n)
    (hlen : B.length = A.length) :
    ((List.zipWith (fun r nr => List.zipWith (fun a b => a + b) r nr)
      A B).flatten).length = A.length * n := by
  induction A generalizing B with
  | nil => simp
  | cons a A ih =>
    cases B with
    | nil => simp at hlen
    | cons b B =>
      simp only [List.zipWith_cons_cons, List.flatten_cons, List.length_append,
        List.length_zipWith, List.length_cons]
      rw [ih B (fun r hr => hA r (List.mem_cons_of_mem _ hr))
        (fun r hr => hB r (List.mem_cons_of_mem _ hr)) (by simpa using hlen)]
      rw [hA a (List.mem_cons_self _ _), hB b (List.mem_cons_self _ _), min_self]
      ring

/-- Helper: the flattened first response has 50 entries when the noise
matrix has the grid's `5 × 10` shape. -/
theorem y1flat_len (e : List (List ℝ)) (he : e.length = 5)
    (her : ∀ r ∈ e, r.length = 10) : (y1flat e).length = 50 := by
  unfold y1flat y1
  rw [flatten_zipWith_add_length 10 _ e
    (dose_response_mat_rows x1 3 6 4 0 10 x1_rows) her
    (by rw [he, dose_response_mat_len]; simp [x1])]
  rw [dose_response_mat_len]
  simp [x1]

/-- Helper: the flattened second response has 50 entries when the noise
matrix has the grid's `5 × 10` shape. -/
theorem y2flat_len (e : List (List ℝ)) (he : e.length = 5)
    (her : ∀ r ∈ e, r.length = 10) : (y2flat e).length = 50 := by
  unfold y2flat y2
  rw [flatten_zipWith_add_length 10 _ e
    (dose_response_mat_rows x2 (5/2) 8 3 (3/2) 10 x2_rows) her
    (by rw [he, dose_response_mat_len]; simp [x2])]
  rw [dose_response_mat_len]
  simp [x2]

/-- Helper: the flattened third response has 50 entries when the noise
matrix has the grid's `5 × 10` shape. -/
theorem y3flat_len (e : List (List ℝ)) (he : e.length = 5)
    (her : ∀ r ∈ e, r.length = 10) : (y3flat e).length = 50 := by
  unfold y3flat y3
  rw [flatten_zipWith_add_length 10 _ e
    (dose_response_mat_rows x3 (16/5) (17/5) (3/2) 0 10 x3_rows) her
    (by rw [he, dose_response_mat_len]; simp [x3])]
  rw [dose_response_mat_len]
  simp [x3]

/-- C4 counterexample: the first model version does not place shared
group-level hyperpriors over the per-molecule parameters: its priors on
`lower`, `upper`, `c50` and `slope` all have fixed numeric
hyperparameters, so the claim fails for `model`. -/
theorem model_v1_not_pooled : pooledAcrossMolecules model = false := by
  decide

/-- C4 (amended): the second and third model versions place shared
group-level hyperpriors over the per-molecule parameters `lower`,
`upper`, `c50` and `slope`; the first version instead uses independent
priors with fixed numeric hyperparameters. -/
theorem pooling_refined_across_versions :
    pooledAcrossMolecules model_v2 = true ∧
      pooledAcrossMolecules model_v3 = true ∧
      pooledAcrossMolecules model = false :=
  ⟨by decide, by decide, by decide⟩

/-- C7: the notebook makes exactly three sampling calls, in order handing
`model`, `model_v2`, `model_v3` to the sampler, each requesting 2000
draws. -/
theorem sample_calls_spec :
    sample_calls.length = 3 ∧
      sample_calls.map Prod.fst = [model, model_v2, model_v3] ∧
      sample_calls.map Prod.snd = [2000, 2000, 2000] :=
  ⟨rfl, rfl, rfl⟩

/-- C5 counterexample: not every column of the assembled DataFrame holds
floating-point values: with the noise matrices all zero, the `molecule`
column (built from the Python integer list) fails the all-floats check. -/
theorem df_molecule_column_not_floats :
    ((mkDf (List.replicate 5 (List.replicate 10 (0 : ℝ)))
        (List.replicate 5 (List.replicate 10 0))
        (List.replicate 5 (List.replicate 10 0))).molecule.all
      PyVal.isFloat) = false := by
  have h : (mkDf (List.replicate 5 (List.replicate 10 (0 : ℝ)))
      (List.replicate 5 (List.replicate 10 0))
      (List.replicate 5 (List.replicate 10 0))).molecule =
      (List.replicate 50 (0 : ℤ) ++ List.replicate 50 1 ++
        List.replicate 50 2).map PyVal.int := by
    simp [mkDf, x1flat_len, x2flat_len, x3flat_len]
  rw [h]
  decide

/-- C5 (amended): the `concentration` and `response` columns of the
assembled DataFrame hold only floating-point values, while the `molecule`
column holds only integer values. -/
theorem df_column_dtypes (e1 e2 e3 : List (List ℝ)) :
    (mkDf e1 e2 e3).concentration.all PyVal.isFloat = true ∧
      (mkDf e1 e2 e3).response.all PyVal.isFloat = true ∧
      (mkDf e1 e2 e3).molecule.all (fun v => !v.isFloat) = true := by
  refine ⟨?_, ?_, ?_⟩ <;>
    simp [mkDf, List.all_map, Function.comp, PyVal.isFloat]

/-- C6: the DataFrame covers exactly three molecules: 150 rows, the
`molecule` column is 50 zeros, then 50 ones, then 50 twos, and row
`50 * k + i` pairs the `i`-th flattened concentration of grid `k + 1`
with the `i`-th flattened response of `y (k + 1)`. -/
theorem df_three_molecule_blocks (e1 e2 e3 : List (List ℝ))
    (he1 : e1.length = 5) (hr1 : ∀ r ∈ e1, r.length = 10)
    (he2 : e2.length = 5) (hr2 : ∀ r ∈ e2, r.length = 10)
    (he3 : e3.length = 5) (hr3 : ∀ r ∈ e3, r.length = 10) :
    (mkDf e1 e2 e3).concentration.length = 150 ∧
      (mkDf e1 e2 e3).response.length = 150 ∧
      (mkDf e1 e2 e3).molecule =
        (List.replicate 50 (0 : ℤ) ++ List.replicate 50 1 ++
          List.replicate 50 2).map PyVal.int ∧
      ∀ i : ℕ, i < 50 →
        ((mkDf e1 e2 e3).concentration[i]? = (x1flat[i]?).map PyVal.float ∧
          (mkDf e1 e2 e3).concentration[50 + i]? =
            (x2flat[i]?).map PyVal.float ∧
          (mkDf e1 e2 e3).concentration[100 + i]? =
            (x3flat[i]?).map PyVal.float ∧
          (mkDf e1 e2 e3).response[i]? = ((y1flat e1)[i]?).map PyVal.float ∧
          (mkDf e1 e2 e3).response[50 + i]? =
            ((y2flat e2)[i]?).map PyVal.float ∧
          (mkDf e1 e2 e3).response[100 + i]? =
            ((y3flat e3)[i]?).map PyVal.float) := by
  have l1 := x1flat_len
  have l2 := x2flat_len
  have l3 := x3flat_len
  have m1 := y1flat_len e1 he1 hr1
  have m2 := y2flat_len e2 he2 hr2
  have m3 := y3flat_len e3 he3 hr3
  refine ⟨?_, ?_, ?_, ?_⟩
  · simp [mkDf, l1, l2, l3]
  · simp [mkDf, m1, m2, m3]
  · simp [mkDf, l1, l2, l3]
  · intro i hi
    refine ⟨?_, ?_, ?_, ?_, ?_, ?_⟩
    · simp only [mkDf, List.getElem?_map]
      rw [List.append_assoc, List.getElem?_append_left (by rw [l1]; omega)]
    · simp only [mkDf, List.getElem?_map]
      rw [List.append_assoc, List.getElem?_append_right (by rw [l1]; omega), l1]
      have hidx : 50 + i - 50 = i := by omega
      rw [hidx, List.getElem?_append_left (by rw [l2]; omega)]
    · simp only [mkDf, List.getElem?_map]
      rw [List.append_assoc, List.getElem?_append_right (by rw [l1]; omega), l1]
      have hidx : 100 + i - 50 = 50 + i := by omega
      rw [hidx, List.getElem?_append_right (by rw [l2]; omega), l2]
      have hidx2 : 50 + i - 50 = i := by omega
      rw [hidx2]
    · simp only [mkDf, List.getElem?_map]
      rw [List.append_assoc, List.getElem?_append_left (by rw [m1]; omega)]
    · simp only [mkDf, List.getElem?_map]
      rw [List.append_assoc, List.getElem?_append_right (by rw [m1]; omega), m1]
      have hidx : 50 + i - 50 = i := by omega
      rw [hidx, List.getElem?_append_left (by rw [m2]; omega)]
    · simp only [mkDf, List.getElem?_map]
      rw [List.append_assoc, List.getElem?_append_right (by rw [m1]; omega), m1]
      have hidx : 100 + i - 50 = 50 + i := by omega
      rw [hidx, List.getElem?_append_right (by rw [m2]; omega), m2]
      have hidx2 : 50 + i - 50 = i := by omega
      rw [hidx2]

/-- Witness for C6 with all-zero `5 × 10` noise matrices and row 7 of the
second molecule's block. -/
theorem df_three_molecule_blocks_witness :
    ((List.replicate 5 (List.replicate 10 (0 : ℝ))).length = 5 ∧
        (7 : ℕ) < 50) ∧
      (mkDf (List.replicate 5 (List.replicate 10 (0 : ℝ)))
          (List.replicate 5 (List.replicate 10 0))
          (List.replicate 5 (List.replicate 10 0))).concentration.length =
        150 ∧
      (mkDf (List.replicate 5 (List.replicate 10 (0 : ℝ)))
          (List.replicate 5 (List.replicate 10 0))
          (List.replicate 5 (List.replicate 10 0))).concentration[50 + 7]? =
        (x2flat[7]?).map PyVal.float := by
  have hlen : (List.replicate 5 (List.replicate 10 (0 : ℝ))).length = 5 := by
    simp
  have hrows : ∀ r ∈ List.replicate 5 (List.replicate 10 (0 : ℝ)),
      r.length = 10 := by
    intro r hr
    rw [List.eq_of_mem_replicate hr]
    simp
  have h := df_three_molecule_blocks
    (List.replicate 5 (List.replicate 10 (0 : ℝ)))
    (List.replicate 5 (List.replicate 10 0))
    (List.replicate 5 (List.replicate 10 0))
    hlen hrows hlen hrows hlen hrows
  exact ⟨⟨hlen, by omega⟩, h.1, (h.2.2.2 7 (by omega)).2.1⟩

/-- Helper: every point of the 10-point linspace from -2 to 2 lies in
the interval `[-2, 2]`. -/
theorem mem_linspace_neg2_2 : ∀ v ∈ linspace (-2) 2 10, -2 ≤ v ∧ v ≤ 2 := by
  intro v hv
  simp only [linspace, List.mem_map, List.mem_range] at hv
  obtain ⟨j, hj, rfl⟩ := hv
  have hj9 : (j : ℝ) ≤ 9 := by exact_mod_cast Nat.lt_succ_iff.mp hj
  have hj0 : (0 : ℝ) ≤ (j : ℝ) := Nat.cast_nonneg j
  have hden : ((10 : ℕ) : ℝ) - 1 = 9 := by norm_num
  rw [hden]
  constructor <;> nlinarith

/-- Helper: every entry of the concatenated flattened grids lies in
`[-2, 2]`. -/
theorem x123flat_mem_bounds :
    ∀ v ∈ x1flat ++ x2flat ++ x3flat, -2 ≤ v ∧ v ≤ 2 := by
  intro v hv
  have hmem : v ∈ linspace (-2) 2 10 := by
    simp only [x1flat, x2flat, x3flat, x1, x2, x3, List.mem_append,
      List.mem_flatten] at hv
    rcases hv with (⟨l, hl, hvl⟩ | ⟨l, hl, hvl⟩) | ⟨l, hl, hvl⟩ <;>
      (rw [List.eq_of_mem_replicate hl] at hvl; exact hvl)
  exact mem_linspace_neg2_2 v hmem

/-- C10: the three molecules share one concentration grid: `x1`, `x2`
and `x3` are equal `5 × 10` arrays whose rows are all the evenly spaced
10-point linspace from -2 to 2 (point `i` is `-2 + 4 i / 9`), and every
concentration value of the DataFrame lies in `[-2, 2]`. -/
theorem grids_identical_and_bounded :
    x1 = x2 ∧ x2 = x3 ∧ x1.length = 5 ∧
      (∀ r ∈ x1, r = linspace (-2) 2 10) ∧
      (linspace (-2) 2 10).length = 10 ∧
      (∀ i : ℕ, i < 10 →
        (linspace (-2) 2 10).getD i 0 = -2 + 4 * i / 9) ∧
      ∀ e1 e2 e3 : List (List ℝ), ∀ i : ℕ,
        ∃ v : ℝ,
          (mkDf e1 e2 e3).concentration.getD i (PyVal.float 0) =
            PyVal.float v ∧ -2 ≤ v ∧ v ≤ 2 := by
  refine ⟨rfl, rfl, by simp [x1], ?_, linspace_len _ _ _, ?_, ?_⟩
  · intro r hr
    simp only [x1] at hr
    exact List.eq_of_mem_replicate hr
  · intro i hi
    simp only [linspace, List.getD_eq_getElem?_getD, List.getElem?_map,
      List.getElem?_range hi, Option.map_some, Option.getD_some]
    norm_num
  · intro e1 e2 e3 i
    rcases h : (x1flat ++ x2flat ++ x3flat)[i]? with _ | v
    · refine ⟨0, ?_, by norm_num, by norm_num⟩
      simp only [mkDf, List.getD_eq_getElem?_getD, List.getElem?_map, h]
      rfl
    · obtain ⟨hb1, hb2⟩ := x123flat_mem_bounds v (List.getElem?_mem h)
      refine ⟨v, ?_, hb1, hb2⟩
      simp only [mkDf, List.getD_eq_getElem?_getD, List.getElem?_map, h]
      rfl

/-- Witness for C10 at row 3 of the shared grid. -/
theorem grids_identical_and_bounded_witness :
    linspace (-2) 2 10 ∈ x1 ∧
      linspace (-2) 2 10 = linspace (-2) 2 10 ∧
      (3 : ℕ) < 10 ∧
      (linspace (-2) 2 10).getD 3 0 = -2 + 4 * ((3 : ℕ) : ℝ) / 9 := by
  have hmem : linspace (-2) 2 10 ∈ x1 := by
    simp only [x1]
    exact List.mem_replicate.mpr ⟨by norm_num, rfl⟩
  exact ⟨hmem, grids_identical_and_bounded.2.2.2.1 _ hmem, by norm_num,
    grids_identical_and_bounded.2.2.2.2.2.1 3 (by norm_num)⟩
